import Mathlib

/-!
Shallow embedding of timeedit_csv_to_canvas.py: a script that parses a
TimeEdit CSV export into event records, converts local wall-clock times to
UTC by subtracting a fixed hour offset, formats a title, description and
location per event, and submits each event to the Canvas calendar API,
counting successes and errors.

Rows are modelled as association lists of named string fields (the CSV
reader yields such mappings).  Timestamps are modelled as seconds on a
linear timeline (days counted with the standard civil-calendar algorithm).
The network transport is modelled as an oracle giving, per request, either
a completed response, an HTTP error response, or a transport failure; the
try/except structure of create_canvas_event is reproduced over it.
-/

/-! ### Configuration constants (source lines 27-38) -/

def CANVAS_DOMAIN : String := "chalmers.instructure.com"

def API_TOKEN : String := "ADD YOUR API TOKEN HERE"

def COURSE_ID : String := "ADD YOUR COURSE ID HERE"

def LANGUAGE : String := "en"

def TIMEZONE_OFFSET : Int := 1

/-! ### Translations (source lines 41-66) -/

def TRANSLATIONS (lang : String) (key : String) : Option String :=
  if lang == "en" then
    if key == "course" then some "Course"
    else if key == "courses" then some "Courses"
    else if key == "activity" then some "Activity"
    else if key == "title" then some "Title"
    else if key == "location" then some "Location"
    else if key == "room" then some "Room"
    else if key == "campus" then some "Campus"
    else if key == "classes" then some "Classes"
    else none
  else if lang == "sv" then
    if key == "course" then some "Kurs"
    else if key == "courses" then some "Kurser"
    else if key == "activity" then some "Aktivitet"
    else if key == "title" then some "Titel"
    else if key == "location" then some "Plats"
    else if key == "room" then some "Rum"
    else if key == "campus" then some "Campus"
    else if key == "classes" then some "Klasser"
    else none
  else none

/-- Get translation for a key based on selected language
    (TRANSLATIONS[LANGUAGE].get(key, key)). -/
def t (key : String) : String := (TRANSLATIONS LANGUAGE key).getD key

/-! ### Rows -/

/-- A CSV row: a mapping from field name to raw text.  A key that is absent
models both a missing column and a None value from the DictReader. -/
abbrev Row : Type := List (String × String)

/-- row.get(key): None when the key is absent. -/
def rowGet (row : Row) (key : String) : Option String :=
  (List.find? (fun p => p.1 == key) row).map (fun p => p.2)

/-- row[key]: raises KeyError when the key is absent. -/
def rowIndex (row : Row) (key : String) : Except String String :=
  match rowGet row key with
  | some v => Except.ok v
  | none => Except.error ("KeyError: " ++ key)

/-- Python truthiness test used on row.get(...): None and the empty string
are falsy, every other string truthy. -/
def pyFalsy (v : Option String) : Bool := v.getD "" == ""

/-! ### Python string primitives

str.strip, str.split, slicing, int() and str.lower modelled by structural
recursion over the character list of the string (Python strings index by
code point, as List Char does). -/

/-- str.strip(): remove leading and trailing whitespace. -/
def pyStrip (s : String) : String :=
  String.mk (((s.data.dropWhile Char.isWhitespace).reverse.dropWhile Char.isWhitespace).reverse)

/-- str.split(sep) for a one-character separator, over the char list. -/
def splitOnChar (c : Char) : List Char → List String
  | [] => [""]
  | ch :: rest =>
    if ch == c then "" :: splitOnChar c rest
    else
      match splitOnChar c rest with
      | s :: tail => String.mk (ch :: s.data) :: tail
      | [] => [String.mk [ch]]

/-- str.split(sep): the empty string yields one empty segment; separators
are never merged. -/
def pySplit (s : String) (c : Char) : List String := splitOnChar c s.data

/-- s[:n] — the first n code points. -/
def pyTake (s : String) (n : Nat) : String := String.mk (s.data.take n)

/-- str.lower() (ASCII letters suffice here). -/
def pyLower (s : String) : String := String.mk (s.data.map Char.toLower)

/-- int() on an all-digit string. -/
def digitsToNat (l : List Char) : Nat := l.foldl (fun n c => n * 10 + (c.toNat - 48)) 0

/-! ### Civil-calendar arithmetic

Days are counted from the era origin 0000-03-01 with the standard
civil-from-days / days-from-civil algorithms; a timestamp is seconds from
that origin.  datetime subtraction of a whole-hour timedelta is then
integer subtraction on this timeline. -/

def isLeapYear (y : Nat) : Bool :=
  (y % 4 == 0 && y % 100 != 0) || y % 400 == 0

def daysInMonth (y m : Nat) : Nat :=
  if m == 2 then (if isLeapYear y then 29 else 28)
  else if m == 4 || m == 6 || m == 9 || m == 11 then 30
  else 31

/-- Days from the era origin to civil date y-m-d (valid for y ≥ 1). -/
def daysFromCivil (y m d : Nat) : Nat :=
  let y2 := if m ≤ 2 then y - 1 else y
  let era := y2 / 400
  let yoe := y2 % 400
  let mp := if 2 < m then m - 3 else m + 9
  let doy := (153 * mp + 2) / 5 + d - 1
  let doe := yoe * 365 + yoe / 4 - yoe / 100 + doy
  era * 146097 + doe

/-- Civil date (y, m, d) of a day count from the era origin. -/
def civilFromDays (z : Nat) : Nat × Nat × Nat :=
  let era := z / 146097
  let doe := z % 146097
  let yoe := (doe - doe / 1460 + doe / 36524 - doe / 146096) / 365
  let y := yoe + era * 400
  let doy := doe - (365 * yoe + yoe / 4 - yoe / 100)
  let mp := (5 * doy + 2) / 153
  let d := doy - (153 * mp + 2) / 5 + 1
  let m := if mp < 10 then mp + 3 else mp - 9
  (if m ≤ 2 then y + 1 else y, m, d)

/-! ### strptime with format "%Y-%m-%d %H:%M"

Model of datetime.strptime: the year is exactly four digits, month, day,
hour and minute are one or two digits within their ranges, the separators
are literal, the day must exist in its month, and no unconverted data may
remain.  The result is the timestamp in seconds (parsed times carry zero
seconds). -/

/-- A numeric field of minLen to maxLen digits whose value lies in
[lo, hi]. -/
def parseNum (s : String) (minLen maxLen lo hi : Nat) : Option Nat :=
  if minLen ≤ s.length && s.length ≤ maxLen && s.data.all Char.isDigit then
    if lo ≤ digitsToNat s.data && digitsToNat s.data ≤ hi then some (digitsToNat s.data)
    else none
  else none

def strptime_date (s : String) : Option (Nat × Nat × Nat) :=
  match pySplit s '-' with
  | [ys, ms, ds] =>
    match parseNum ys 4 4 1 9999, parseNum ms 1 2 1 12, parseNum ds 1 2 1 31 with
    | some y, some m, some d =>
      if d ≤ daysInMonth y m then some (y, m, d) else none
    | _, _, _ => none
  | _ => none

def strptime_time (s : String) : Option (Nat × Nat) :=
  match pySplit s ':' with
  | [hs, ms] =>
    match parseNum hs 1 2 0 23, parseNum ms 1 2 0 59 with
    | some h, some mi => some (h, mi)
    | _, _ => none
  | _ => none

/-- datetime.strptime(s, "%Y-%m-%d %H:%M") as seconds from the era origin;
the literal space in the format matches a run of whitespace. -/
def strptime_ymd_hm (s : String) : Option Nat :=
  match (pySplit s ' ').filter (fun w => !(w == "")) with
  | [dstr, tstr] =>
    match strptime_date dstr, strptime_time tstr with
    | some (y, m, d), some (h, mi) =>
      some (daysFromCivil y m d * 86400 + h * 3600 + mi * 60)
    | _, _ => none
  | _ => none

/-- Left-pad a decimal rendering with zeros to the given width. -/
def zeroPad (width n : Nat) : String :=
  let s := toString n
  if s.length < width then String.mk (List.replicate (width - s.length) '0') ++ s
  else s

/-- strftime('%Y-%m-%dT%H:%M:%SZ') on an instant of the linear timeline
(instants arising from parsing are far above zero, so the Nat view is
exact for every reachable input). -/
def strftimeUTC (z : Int) : String :=
  let zn := z.toNat
  let days := zn / 86400
  let rem := zn % 86400
  let c := civilFromDays days
  zeroPad 4 c.1 ++ "-" ++ zeroPad 2 c.2.1 ++ "-" ++ zeroPad 2 c.2.2 ++ "T" ++
    zeroPad 2 (rem / 3600) ++ ":" ++ zeroPad 2 (rem % 3600 / 60) ++ ":" ++
    zeroPad 2 (rem % 60) ++ "Z"

/-! ### Events (source lines 123-133) -/

structure Event where
  start : Int
  end_ : Int
  course_codes : List String
  course_names : List String
  activities : List String
  title : String
  room : String
  class_codes : List String
  class_names : List String
deriving Repr, DecidableEq

/-! ### Parser (source lines 68-137, one row at a time)

parse_csv_file opens the file and iterates the DictReader rows; the file
handling is outside the embedding, so the parser takes the row list.  Any
exception raised inside the loop (KeyError from a direct row index,
ValueError from strptime) aborts the whole parse, modelled by Except. -/

def parseRow (tz : Int) (row : Row) : Except String (Option Event) :=
  -- Skip empty rows (line 81)
  if pyFalsy (rowGet row "Begin date") || pyFalsy (rowGet row "Begin time") then
    Except.ok none
  else
    -- row['End date'] and row['End time'] are direct indexes (lines 87-88);
    -- the stripped begin/end field values are inlined below
    match rowIndex row "End date" with
    | Except.error msg => Except.error msg
    | Except.ok edv =>
      match rowIndex row "End time" with
      | Except.error msg => Except.error msg
      | Except.ok etv =>
        match strptime_ymd_hm (pyStrip ((rowGet row "Begin date").getD "") ++ " " ++
            pyStrip ((rowGet row "Begin time").getD "")) with
        | none =>
          Except.error ("time data does not match format: " ++
            pyStrip ((rowGet row "Begin date").getD "") ++ " " ++
            pyStrip ((rowGet row "Begin time").getD ""))
        | some start_local =>
          match strptime_ymd_hm (pyStrip edv ++ " " ++ pyStrip etv) with
          | none =>
            Except.error ("time data does not match format: " ++ pyStrip edv ++ " " ++ pyStrip etv)
          | some end_local =>
            -- Convert to UTC by subtracting the timezone offset (lines 95-96)
            Except.ok (some
              { start := (start_local : Int) - 3600 * tz
                end_ := (end_local : Int) - 3600 * tz
                course_codes :=
                  ((pySplit (pyStrip ((rowGet row "Course code").getD "")) ',').filter
                    (fun code => !(pyStrip code == ""))).map (fun code => pyTake code 6)
                course_names :=
                  ((pySplit (pyStrip ((rowGet row "Course name").getD "")) ',').filter
                    (fun name => !(pyStrip name == ""))).map (fun name => pyStrip name)
                activities :=
                  ((pySplit (pyStrip ((rowGet row "Activity").getD "")) ',').filter
                    (fun act => !(pyStrip act == ""))).map (fun act => pyStrip act)
                title := pyStrip ((rowGet row "Title").getD "")
                room := pyStrip ((rowGet row "Room").getD "")
                class_codes :=
                  ((pySplit (pyStrip ((rowGet row "class code").getD "")) ',').filter
                    (fun code => !(pyStrip code == ""))).map (fun code => pyStrip code)
                class_names :=
                  ((pySplit (pyStrip ((rowGet row "Name").getD "")) ',').filter
                    (fun name => !(pyStrip name == ""))).map (fun name => pyStrip name) })

/-- Parse the CSV rows and extract events; the first exception aborts the
whole parse. -/
def parse_csv_file (tz : Int) (rows : List Row) : Except String (List Event) :=
  match rows with
  | [] => Except.ok []
  | row :: rest =>
    match parseRow tz row with
    | Except.error msg => Except.error msg
    | Except.ok none => parse_csv_file tz rest
    | Except.ok (some ev) =>
      match parse_csv_file tz rest with
      | Except.error msg => Except.error msg
      | Except.ok evs => Except.ok (ev :: evs)

/-! ### Formatter (source lines 139-189) -/

/-- Create a concise title for the Canvas event. -/
def format_event_title (ev : Event) : String :=
  if ev.activities ≠ [] then String.intercalate ", " ev.activities
  else if ev.title ≠ "" then ev.title
  else if ev.course_names ≠ [] then
    let course := ev.course_names.headD ""
    if 40 < course.length then pyTake course 37 ++ "..." else course
  else "Event"

/-- One line of the course block: the code, suffixed with the positionally
aligned course name when that index exists and the name is non-empty
(lines 162-167). -/
def course_line (ev : Event) (i : Nat) (code : String) : String :=
  let name := if i < ev.course_names.length then ev.course_names.getD i "" else ""
  if name ≠ "" then "   " ++ code ++ " - " ++ name ++ "<br>"
  else "   " ++ code ++ "<br>"

/-- Course block (lines 159-168). -/
def course_block (ev : Event) : List String :=
  if ev.course_codes ≠ [] then
    let label := if 1 < ev.course_codes.length then t "courses" else t "course"
    (label ++ ":<br>") ::
      (ev.course_codes.enum.map (fun p => course_line ev p.1 p.2) ++ ["<br>"])
  else []

/-- Activity block (lines 171-173). -/
def activity_block (ev : Event) : List String :=
  if ev.activities ≠ [] then
    ["📋 " ++ t "activity" ++ ": " ++ String.intercalate ", " ev.activities ++ "<br>", "<br>"]
  else []

/-- Title block, emitted only when the title is non-empty and not already
among the activities (lines 176-178). -/
def title_block (ev : Event) : List String :=
  if ev.title ≠ "" ∧ ¬ ev.title ∈ ev.activities then
    ["📌 " ++ t "title" ++ ": " ++ ev.title ++ "<br>", "<br>"]
  else []

/-- Location block (lines 181-183). -/
def location_block (ev : Event) : List String :=
  if ev.room ≠ "" then
    ["📍 " ++ t "location" ++ ": " ++ ev.room ++ "<br>", "<br>"]
  else []

/-- The parts list built by format_event_description. -/
def description_parts (ev : Event) : List String :=
  course_block ev ++ activity_block ev ++ title_block ev ++ location_block ev

/-- Create a detailed description for the Canvas event:
"".join(parts).strip(). -/
def format_event_description (ev : Event) : String :=
  pyStrip (String.join (description_parts ev))

/-- Format location string for Canvas location field. -/
def format_location (ev : Event) : String :=
  if ev.room ≠ "" then ev.room else ""

/-! ### Submission (source lines 191-227) -/

/-- The JSON payload built by create_canvas_event (lines 195-213). -/
structure CalendarEventPayload where
  context_code : String
  title : String
  start_at : String
  end_at : String
  location_name : String
  description : String
deriving Repr, DecidableEq

def canvas_event_payload (course_id : String) (ev : Event) : CalendarEventPayload :=
  { context_code := "course_" ++ course_id
    title := format_event_title ev
    start_at := strftimeUTC ev.start
    end_at := strftimeUTC ev.end_
    location_name := format_location ev
    description := format_event_description ev }

/-- Outcome of one urlopen call: a completed response, an HTTPError raised
for a non-2xx response, or a URLError for a transport-level failure (the
request could not be completed). -/
inductive TransportOutcome where
  | response (status : Nat) (body : String)
  | httpError (code : Nat) (body : String)
  | urlError (reason : String)
deriving Repr, DecidableEq

/-- The try/except of create_canvas_event (lines 223-227): a completed
response returns (status, body); an HTTPError is caught and returns
(code, body); any other exception, URLError included, propagates. -/
def create_canvas_event (outcome : TransportOutcome) : Except String (Nat × String) :=
  match outcome with
  | TransportOutcome.response status body => Except.ok (status, body)
  | TransportOutcome.httpError code body => Except.ok (code, body)
  | TransportOutcome.urlError reason => Except.error reason

/-! ### Driver (source lines 229-325) -/

/-- The per-event creation loop of main (lines 289-315): status 201
increments the success count, any other status the error count; an
exception from create_canvas_event propagates out of the loop. -/
def submitLoop (transport : Event → TransportOutcome) :
    List Event → Nat → Nat → Except String (Nat × Nat)
  | [], success_count, error_count => Except.ok (success_count, error_count)
  | ev :: rest, success_count, error_count =>
    match create_canvas_event (transport ev) with
    | Except.error msg => Except.error msg
    | Except.ok (status, _body) =>
      if status == 201 then submitLoop transport rest (success_count + 1) error_count
      else submitLoop transport rest success_count (error_count + 1)

/-- Result of a run of main under the top-level handler of lines 327-337:
sys.exit(1) and an uncaught exception both end the process with exit
status 1. -/
inductive RunResult where
  | exited (code : Nat)
  | cancelled
  | finished (success_count error_count : Nat)
deriving Repr, DecidableEq

/-- main (lines 229-325): the placeholder check on the API token, the
FileNotFoundError and generic exception handlers around parsing, the
confirmation prompt, and the creation loop.  The row source is none when
the CSV file cannot be found. -/
def main_run (api_token : String) (source : Option (List Row)) (tz : Int)
    (confirm : String) (transport : Event → TransportOutcome) : RunResult :=
  if api_token == "YOUR_API_TOKEN_HERE" then RunResult.exited 1
  else
    match source with
    | none => RunResult.exited 1
    | some rows =>
      match parse_csv_file tz rows with
      | Except.error _ => RunResult.exited 1
      | Except.ok events =>
        if pyLower confirm == "yes" || pyLower confirm == "y" then
          match submitLoop transport events 0 0 with
          | Except.error _ => RunResult.exited 1
          | Except.ok (s, e) => RunResult.finished s e
        else RunResult.cancelled

/-- A transport outcome that yields a (status, body) pair: a completed
response or a caught HTTPError; false exactly for a transport failure. -/
def completes : TransportOutcome → Bool
  | TransportOutcome.urlError _ => false
  | _ => true

/-- The status code carried by a completed outcome. -/
def statusOf : TransportOutcome → Nat
  | TransportOutcome.response status _ => status
  | TransportOutcome.httpError code _ => code
  | TransportOutcome.urlError _ => 0

/-! ### Concrete sample data for witnesses and counterexamples -/

def rowSample : Row :=
  [("Begin date", "2024-01-15"), ("Begin time", "10:00"),
   ("End date", "2024-01-15"), ("End time", "11:00"),
   ("Course code", "ABC123, DEF4567"), ("Course name", "Algebra, Analysis"),
   ("Activity", "Lecture"), ("Title", "Intro"), ("Room", "HA1"),
   ("class code", "TKDAT-1"), ("Name", "Datateknik")]

/-- The event rowSample parses to with offset 1. -/
def evSample : Event :=
  { start := 63867344400
    end_ := 63867348000
    course_codes := ["ABC123", " DEF45"]
    course_names := ["Algebra", "Analysis"]
    activities := ["Lecture"]
    title := "Intro"
    room := "HA1"
    class_codes := ["TKDAT-1"]
    class_names := ["Datateknik"] }

/-- A row with begin fields only: End date and End time are absent. -/
def rowMissingEnd : Row := [("Begin date", "2024-01-15"), ("Begin time", "10:00")]

/-- A row whose End date and End time are present but empty. -/
def rowEmptyEnd : Row :=
  [("Begin date", "2024-01-15"), ("Begin time", "10:00"),
   ("End date", ""), ("End time", "")]

/-- A non-skipped row with all four date fields present but a malformed
End date (month 13). -/
def rowBadTimestamp : Row :=
  [("Begin date", "2024-01-15"), ("Begin time", "10:00"),
   ("End date", "2024-13-01"), ("End time", "11:00")]

/-- A row with all four date fields and nothing else. -/
def rowBare : Row :=
  [("Begin date", "2024-01-15"), ("Begin time", "10:00"),
   ("End date", "2024-01-15"), ("End time", "11:00")]

def evA : Event :=
  { start := 0, end_ := 3600, course_codes := [], course_names := [],
    activities := [], title := "a", room := "", class_codes := [], class_names := [] }

def evB : Event :=
  { start := 0, end_ := 3600, course_codes := [], course_names := [],
    activities := [], title := "b", room := "", class_codes := [], class_names := [] }

/-- An event with only a title set. -/
def evSeminar : Event :=
  { start := 0, end_ := 3600, course_codes := [], course_names := [],
    activities := [], title := "Seminar X", room := "", class_codes := [], class_names := [] }

/-- An event with neither activities nor title, and one long course name. -/
def evLongName : Event :=
  { start := 0, end_ := 3600, course_codes := [],
    course_names := ["A very long course name exceeding forty characters total"],
    activities := [], title := "", room := "", class_codes := [], class_names := [] }

/-- A transport oracle: event titled a gets a 201 creation response, every
other event a 500 error response. -/
def transportSplit : Event → TransportOutcome := fun ev =>
  if ev.title == "a" then TransportOutcome.response 201 "created"
  else TransportOutcome.httpError 500 "boom"

/-! ### Helper lemmas -/

lemma parseRow_eq_some (tz : Int) (row : Row) (ev : Event)
    (h : parseRow tz row = Except.ok (some ev)) :
    ∃ edv etv b e,
      (pyFalsy (rowGet row "Begin date") || pyFalsy (rowGet row "Begin time")) = false ∧
      rowIndex row "End date" = Except.ok edv ∧
      rowIndex row "End time" = Except.ok etv ∧
      strptime_ymd_hm (pyStrip ((rowGet row "Begin date").getD "") ++ " " ++
        pyStrip ((rowGet row "Begin time").getD "")) = some b ∧
      strptime_ymd_hm (pyStrip edv ++ " " ++ pyStrip etv) = some e ∧
      ev = { start := (b : Int) - 3600 * tz
             end_ := (e : Int) - 3600 * tz
             course_codes := ((pySplit (pyStrip ((rowGet row "Course code").getD "")) ',').filter
               (fun code => !(pyStrip code == ""))).map (fun code => pyTake code 6)
             course_names := ((pySplit (pyStrip ((rowGet row "Course name").getD "")) ',').filter
               (fun name => !(pyStrip name == ""))).map (fun name => pyStrip name)
             activities := ((pySplit (pyStrip ((rowGet row "Activity").getD "")) ',').filter
               (fun act => !(pyStrip act == ""))).map (fun act => pyStrip act)
             title := pyStrip ((rowGet row "Title").getD "")
             room := pyStrip ((rowGet row "Room").getD "")
             class_codes := ((pySplit (pyStrip ((rowGet row "class code").getD "")) ',').filter
               (fun code => !(pyStrip code == ""))).map (fun code => pyStrip code)
             class_names := ((pySplit (pyStrip ((rowGet row "Name").getD "")) ',').filter
               (fun name => !(pyStrip name == ""))).map (fun name => pyStrip name) } := by
  unfold parseRow at h
  split at h
  · simp at h
  · rename_i hskip
    split at h
    · exact Except.noConfusion h
    · rename_i edv hed
      split at h
      · exact Except.noConfusion h
      · rename_i etv het
        split at h
        · exact Except.noConfusion h
        · rename_i b hb
          split at h
          · exact Except.noConfusion h
          · rename_i e he
            refine ⟨edv, etv, b, e, by simpa using hskip, hed, het, hb, he, ?_⟩
            injection h with h1
            injection h1 with h2
            exact h2.symm

lemma parse_csv_file_mem (tz : Int) (rows : List Row) (evs : List Event)
    (h : parse_csv_file tz rows = Except.ok evs) :
    ∀ ev ∈ evs, ∃ row ∈ rows, parseRow tz row = Except.ok (some ev) := by
  induction rows generalizing evs with
  | nil =>
    unfold parse_csv_file at h
    injection h with h1
    subst h1
    intro ev hev
    cases hev
  | cons row rest ih =>
    unfold parse_csv_file at h
    split at h
    · exact Except.noConfusion h
    · intro ev hev
      obtain ⟨r, hr, hpr⟩ := ih evs h ev hev
      exact ⟨r, List.mem_cons_of_mem _ hr, hpr⟩
    · rename_i ev0 hrow
      split at h
      · exact Except.noConfusion h
      · rename_i evs0 hrest
        injection h with h1
        subst h1
        intro ev hev
        rcases List.mem_cons.mp hev with hl | hr
        · subst hl
          exact ⟨row, List.mem_cons_self row rest, hrow⟩
        · obtain ⟨r, hrm, hpr⟩ := ih evs0 hrest ev hr
          exact ⟨r, List.mem_cons_of_mem _ hrm, hpr⟩

lemma parse_csv_file_error_of_mem (tz : Int) (rows : List Row) (row : Row) (msg : String)
    (hmem : row ∈ rows) (herr : parseRow tz row = Except.error msg) :
    ∃ msg2, parse_csv_file tz rows = Except.error msg2 := by
  induction rows with
  | nil => cases hmem
  | cons r rest ih =>
    rcases List.mem_cons.mp hmem with hl | hr
    · subst hl
      exact ⟨msg, by unfold parse_csv_file; rw [herr]⟩
    · unfold parse_csv_file
      cases hpr : parseRow tz r with
      | error m => exact ⟨m, rfl⟩
      | ok o =>
        obtain ⟨m2, hm2⟩ := ih hr
        cases o with
        | none => exact ⟨m2, hm2⟩
        | some ev0 => exact ⟨m2, by rw [hm2]⟩

lemma length_filter_add_length_filter_not {α : Type} (l : List α) (p : α → Bool) :
    (l.filter p).length + (l.filter (fun a => !(p a))).length = l.length := by
  induction l with
  | nil => rfl
  | cons a rest ih =>
    by_cases hp : p a = true
    · simp [List.filter_cons, hp]
      omega
    · simp only [Bool.not_eq_true] at hp
      simp [List.filter_cons, hp]
      omega

lemma rowGet_append_ne (row : Row) (f v k : String) (hne : (f == k) = false) :
    rowGet (row ++ [(f, v)]) k = rowGet row k := by
  unfold rowGet
  rw [List.find?_append]
  cases hfind : List.find? (fun p => p.1 == k) row with
  | some p => rfl
  | none => simp [List.find?, hne]

lemma rowGet_append_self (row : Row) (f v : String) (hnone : rowGet row f = none) :
    rowGet (row ++ [(f, v)]) f = some v := by
  unfold rowGet at hnone ⊢
  rw [List.find?_append]
  cases hfind : List.find? (fun p => p.1 == f) row with
  | some p => rw [hfind] at hnone; exact Option.noConfusion hnone
  | none => simp [List.find?]

/-- parseRow reads a row only through getD-defaulted gets plus the two
direct End indexes, so it is invariant under any change that preserves
those observations. -/
lemma parseRow_congr (tz : Int) (row1 row2 : Row)
    (hget : ∀ k, (rowGet row1 k).getD "" = (rowGet row2 k).getD "")
    (hed : rowIndex row1 "End date" = rowIndex row2 "End date")
    (het : rowIndex row1 "End time" = rowIndex row2 "End time") :
    parseRow tz row1 = parseRow tz row2 := by
  unfold parseRow pyFalsy
  simp only [hget, hed, het]

/-- The creation loop with arbitrary starting counters, when every
submission completes with a status: successes count the 201 statuses,
errors count the rest. -/
lemma submitLoop_spec (transport : Event → TransportOutcome) (events : List Event) :
    ∀ s0 e0 : Nat, (∀ ev ∈ events, completes (transport ev) = true) →
      submitLoop transport events s0 e0 =
        Except.ok (s0 + (events.filter (fun ev => statusOf (transport ev) == 201)).length,
                   e0 + (events.filter (fun ev => !(statusOf (transport ev) == 201))).length) := by
  induction events with
  | nil => intro s0 e0 _; simp [submitLoop]
  | cons ev rest ih =>
    intro s0 e0 hc
    have hcev : completes (transport ev) = true := hc ev (List.mem_cons_self ev rest)
    have hcr : ∀ x ∈ rest, completes (transport x) = true :=
      fun x hx => hc x (List.mem_cons_of_mem _ hx)
    cases htr : transport ev with
    | urlError reason =>
      rw [htr] at hcev
      exact absurd hcev (by simp [completes])
    | response status body =>
      by_cases hst : (status == 201) = true
      · simp only [submitLoop, htr, create_canvas_event, hst, if_true]
        rw [ih (s0 + 1) e0 hcr]
        simp [List.filter_cons, htr, statusOf, hst]
        omega
      · have hst2 : (status == 201) = false := by simpa using hst
        simp only [submitLoop, htr, create_canvas_event, hst2, Bool.false_eq_true, if_false]
        rw [ih s0 (e0 + 1) hcr]
        simp [List.filter_cons, htr, statusOf, hst2]
        omega
    | httpError code body =>
      by_cases hst : (code == 201) = true
      · simp only [submitLoop, htr, create_canvas_event, hst, if_true]
        rw [ih (s0 + 1) e0 hcr]
        simp [List.filter_cons, htr, statusOf, hst]
        omega
      · have hst2 : (code == 201) = false := by simpa using hst
        simp only [submitLoop, htr, create_canvas_event, hst2, Bool.false_eq_true, if_false]
        rw [ih s0 (e0 + 1) hcr]
        simp [List.filter_cons, htr, statusOf, hst2]
        omega

/-! ### Claims -/

/-- C1, counterexample: a transport-level failure (URLError) is not caught
by create_canvas_event: it propagates as an exception instead of being
converted into a synthetic status/body result, and it aborts the per-event
loop, so the claim as stated is false on the code. -/
theorem C1_counterexample :
    create_canvas_event (TransportOutcome.urlError "Connection refused") =
      Except.error "Connection refused" ∧
    submitLoop (fun _ => TransportOutcome.urlError "Connection refused") [evA, evB] 0 0 =
      Except.error "Connection refused" := ⟨rfl, rfl⟩

/-- C1, amended: a request that completes with any HTTP status yields a
(status, body) result — the HTTPError raised for a non-2xx response is
caught and converted — while a transport-level failure is not caught and
propagates out of create_canvas_event. -/
theorem C1_amended_error_conversion (status code : Nat) (body body2 reason : String) :
    create_canvas_event (TransportOutcome.response status body) = Except.ok (status, body) ∧
    create_canvas_event (TransportOutcome.httpError code body2) = Except.ok (code, body2) ∧
    create_canvas_event (TransportOutcome.urlError reason) = Except.error reason :=
  ⟨rfl, rfl, rfl⟩

/-- C2, counterexample: the comma-separated course codes are not trimmed
per segment before truncation; the segment " DEF4567" of rowSample parses
to " DEF45", not to the first six characters "DEF456" of its trimmed
form. -/
theorem C2_counterexample :
    (parse_csv_file 1 [rowSample]).map (fun evs => evs.map Event.course_codes) =
      Except.ok [["ABC123", " DEF45"]] ∧
    ¬ (" DEF45" = pyTake (pyStrip " DEF4567") 6) ∧
    pyStrip " DEF4567" = "DEF4567" ∧ pyTake "DEF4567" 6 = "DEF456" := by
  refine ⟨rfl, by decide, rfl, rfl⟩

/-- C2, amended: the raw Course code field is trimmed as a whole, split on
comma, whitespace-only segments are dropped, and each kept segment is
truncated to its first six characters without per-segment trimming; for a
segment carrying no surrounding whitespace the parsed code is exactly the
first six characters of its trimmed form. -/
theorem C2_amended_course_codes (tz : Int) (rows : List Row) (evs : List Event) (ev : Event)
    (h : parse_csv_file tz rows = Except.ok evs) (hev : ev ∈ evs) :
    ∃ row ∈ rows,
      ev.course_codes =
        ((pySplit (pyStrip ((rowGet row "Course code").getD "")) ',').filter
          (fun code => !(pyStrip code == ""))).map (fun code => pyTake code 6) ∧
      ∀ seg ∈ (pySplit (pyStrip ((rowGet row "Course code").getD "")) ',').filter
          (fun code => !(pyStrip code == "")),
        pyTake seg 6 ∈ ev.course_codes ∧
          (pyStrip seg = seg → pyTake seg 6 = pyTake (pyStrip seg) 6) := by
  obtain ⟨row, hrow, hpr⟩ := parse_csv_file_mem tz rows evs h ev hev
  obtain ⟨edv, etv, b, e, hskip, hed, het, hb, he, hev_eq⟩ := parseRow_eq_some tz row ev hpr
  subst hev_eq
  refine ⟨row, hrow, rfl, ?_⟩
  intro seg hseg
  exact ⟨List.mem_map_of_mem _ hseg, fun hst => by rw [hst]⟩

/-- C2, witness: the amended statement instantiated on the sample row. -/
theorem C2_amended_witness :
    ∃ row ∈ [rowSample],
      evSample.course_codes =
        ((pySplit (pyStrip ((rowGet row "Course code").getD "")) ',').filter
          (fun code => !(pyStrip code == ""))).map (fun code => pyTake code 6) ∧
      ∀ seg ∈ (pySplit (pyStrip ((rowGet row "Course code").getD "")) ',').filter
          (fun code => !(pyStrip code == "")),
        pyTake seg 6 ∈ evSample.course_codes ∧
          (pyStrip seg = seg → pyTake seg 6 = pyTake (pyStrip seg) 6) :=
  C2_amended_course_codes 1 [rowSample] [evSample] evSample rfl (by simp)

/-- C3: the code is wrong and the claim describes the intent.  The
configured placeholder default of the API token is the string
ADD YOUR API TOKEN HERE, but the guard in main compares against the
different string YOUR_API_TOKEN_HERE, so a run with the token left at its
default passes the check, parses the file and reaches the confirmation
prompt instead of aborting. -/
theorem C3_placeholder_check_dead :
    (API_TOKEN == "YOUR_API_TOKEN_HERE") = false ∧
    main_run API_TOKEN (some [rowSample]) 1 "no" (fun _ => TransportOutcome.response 201 "") =
      RunResult.cancelled :=
  ⟨rfl, rfl⟩

/-- C4, counterexample: a row whose End date field is absent is not
treated as a row with an empty End date — its parse fails with a key
error, a different outcome than the timestamp-format error the empty
string produces — so parsing can fail merely because a field is
missing. -/
theorem C4_counterexample :
    parse_csv_file 1 [rowMissingEnd] = Except.error "KeyError: End date" ∧
    parse_csv_file 1 [rowEmptyEnd] = Except.error "time data does not match format:  " ∧
    ¬ (parse_csv_file 1 [rowMissingEnd] = parse_csv_file 1 [rowEmptyEnd]) := by
  refine ⟨rfl, rfl, ?_⟩
  intro h
  rw [show parse_csv_file 1 [rowMissingEnd] = Except.error "KeyError: End date" from rfl] at h
  rw [show parse_csv_file 1 [rowEmptyEnd] =
        Except.error "time data does not match format:  " from rfl] at h
  injection h with h2
  exact absurd h2 (by decide)

/-- C4, amended: every field other than End date and End time is read with
an empty-string default, so its absence is indistinguishable from the
empty string (an absent Begin date or Begin time falls to the same skip
branch as an empty one); End date and End time are indexed directly, so in
a non-skipped row their absence raises a key error that aborts the
parse. -/
theorem C4_amended_absent_fields (tz : Int) (row : Row) :
    (∀ f, (f == "End date") = false → (f == "End time") = false →
       rowGet row f = none → parseRow tz row = parseRow tz (row ++ [(f, "")])) ∧
    ((rowGet row "Begin date" = none ∨ rowGet row "Begin time" = none) →
       parseRow tz row = Except.ok none) ∧
    ((pyFalsy (rowGet row "Begin date") || pyFalsy (rowGet row "Begin time")) = false →
       rowGet row "End date" = none →
       parseRow tz row = Except.error ("KeyError: " ++ "End date")) ∧
    (∀ edv, (pyFalsy (rowGet row "Begin date") || pyFalsy (rowGet row "Begin time")) = false →
       rowGet row "End date" = some edv → rowGet row "End time" = none →
       parseRow tz row = Except.error ("KeyError: " ++ "End time")) := by
  refine ⟨?_, ?_, ?_, ?_⟩
  · intro f hfd hft hnone
    apply parseRow_congr
    · intro k
      by_cases hk : (f == k) = true
      · have hfk : f = k := by simpa using hk
        subst hfk
        rw [rowGet_append_self row f "" hnone, hnone]
        rfl
      · have hk2 : (f == k) = false := by simpa using hk
        rw [rowGet_append_ne row f "" k hk2]
    · unfold rowIndex
      rw [rowGet_append_ne row f "" "End date" hfd]
    · unfold rowIndex
      rw [rowGet_append_ne row f "" "End time" hft]
  · intro hcond
    have hc : (pyFalsy (rowGet row "Begin date") || pyFalsy (rowGet row "Begin time")) = true := by
      rcases hcond with h | h <;> simp [pyFalsy, h]
    unfold parseRow
    simp [hc]
  · intro hskip hnone
    unfold parseRow
    rw [hskip]
    simp only [Bool.false_eq_true, if_false]
    unfold rowIndex
    rw [hnone]
  · intro edv hskip hed hnone
    unfold parseRow
    rw [hskip]
    simp only [Bool.false_eq_true, if_false]
    unfold rowIndex
    rw [hed, hnone]

/-- C4, witness: the amended statement instantiated — an absent Room field
behaves as an empty one on a full row, and an absent End date aborts the
parse of a begin-only row. -/
theorem C4_amended_witness :
    parseRow 1 rowBare = parseRow 1 (rowBare ++ [("Room", "")]) ∧
    parseRow 1 rowMissingEnd = Except.error "KeyError: End date" := by
  constructor
  · exact (C4_amended_absent_fields 1 rowBare).1 "Room" rfl rfl rfl
  · exact (C4_amended_absent_fields 1 rowMissingEnd).2.2.1 rfl rfl

/-- C5: when every submission completes with a status, the loop returns
counts where the success count is the number of events whose status is 201
and the error count is the number of events with any other status — one
increment per event — and the two counts sum to the number of events. -/
theorem C5_exactly_one_counter (transport : Event → TransportOutcome) (events : List Event)
    (hc : ∀ ev ∈ events, completes (transport ev) = true) :
    submitLoop transport events 0 0 =
      Except.ok ((events.filter (fun ev => statusOf (transport ev) == 201)).length,
                 (events.filter (fun ev => !(statusOf (transport ev) == 201))).length) ∧
    (events.filter (fun ev => statusOf (transport ev) == 201)).length +
      (events.filter (fun ev => !(statusOf (transport ev) == 201))).length = events.length := by
  constructor
  · simpa using submitLoop_spec transport events 0 0 hc
  · exact length_filter_add_length_filter_not events _

/-- C5, witness: two events, one answered 201 and one answered 500, end
the loop with one success and one error. -/
theorem C5_witness :
    submitLoop transportSplit [evA, evB] 0 0 = Except.ok (1, 1) ∧ 1 + 1 = 2 := by
  have h := C5_exactly_one_counter transportSplit [evA, evB] (by decide)
  exact ⟨h.1.trans rfl, rfl⟩

/-- C6: title derivation follows the first-match precedence — activities
joined with a comma-space, else a non-empty title verbatim, else the first
course name truncated to 37 characters plus an ellipsis exactly when
longer than 40 characters, else the literal Event. -/
theorem C6_title_precedence (ev : Event) :
    (ev.activities ≠ [] → format_event_title ev = String.intercalate ", " ev.activities) ∧
    (ev.activities = [] → ev.title ≠ "" → format_event_title ev = ev.title) ∧
    (ev.activities = [] → ev.title = "" → ev.course_names ≠ [] →
      format_event_title ev =
        (if 40 < (ev.course_names.headD "").length then
          pyTake (ev.course_names.headD "") 37 ++ "..."
        else ev.course_names.headD "")) ∧
    (ev.activities = [] → ev.title = "" → ev.course_names = [] →
      format_event_title ev = "Event") := by
  refine ⟨?_, ?_, ?_, ?_⟩ <;> intros <;> simp_all [format_event_title]

/-- C6, witness: the precedence instantiated on the three example shapes
of the specification. -/
theorem C6_witness :
    format_event_title evSample = "Lecture" ∧
    format_event_title evSeminar = "Seminar X" ∧
    format_event_title evLongName = "A very long course name exceeding for..." := by
  refine ⟨?_, ?_, ?_⟩
  · exact ((C6_title_precedence evSample).1 (by decide)).trans rfl
  · exact ((C6_title_precedence evSeminar).2.1 rfl (by decide)).trans rfl
  · exact ((C6_title_precedence evLongName).2.2.1 rfl rfl (by decide)).trans rfl

/-- C7: each parsed event carries timestamps obtained from the local
wall-clock times of its row by subtracting exactly 3600 times the
configured hour offset on the linear timeline; the request payload formats
both as second-precision UTC strings; the conversion preserves ordering,
so a row whose local begin time precedes its local end time yields an
event with start before end; and the concrete example of the
specification holds: local 2024-01-15 10:00 and 11:00 with offset 1
format to 2024-01-15T09:00:00Z and 2024-01-15T10:00:00Z. -/
theorem C7_time_conversion (tz : Int) (rows : List Row) (evs : List Event) (ev : Event)
    (h : parse_csv_file tz rows = Except.ok evs) (hev : ev ∈ evs) :
    (∃ row ∈ rows, ∃ edv etv : String, ∃ b e : Nat,
        rowIndex row "End date" = Except.ok edv ∧
        rowIndex row "End time" = Except.ok etv ∧
        strptime_ymd_hm (pyStrip ((rowGet row "Begin date").getD "") ++ " " ++
          pyStrip ((rowGet row "Begin time").getD "")) = some b ∧
        strptime_ymd_hm (pyStrip edv ++ " " ++ pyStrip etv) = some e ∧
        ev.start = (b : Int) - 3600 * tz ∧
        ev.end_ = (e : Int) - 3600 * tz ∧
        (b < e → ev.start < ev.end_)) ∧
    (canvas_event_payload COURSE_ID ev).start_at = strftimeUTC ev.start ∧
    (canvas_event_payload COURSE_ID ev).end_at = strftimeUTC ev.end_ ∧
    strftimeUTC (((strptime_ymd_hm "2024-01-15 10:00").getD 0 : Int) - 3600 * 1) =
      "2024-01-15T09:00:00Z" ∧
    strftimeUTC (((strptime_ymd_hm "2024-01-15 11:00").getD 0 : Int) - 3600 * 1) =
      "2024-01-15T10:00:00Z" := by
  obtain ⟨row, hrow, hpr⟩ := parse_csv_file_mem tz rows evs h ev hev
  obtain ⟨edv, etv, b, e, hskip, hed, het, hb, he, hev_eq⟩ := parseRow_eq_some tz row ev hpr
  subst hev_eq
  refine ⟨⟨row, hrow, edv, etv, b, e, hed, het, hb, he, rfl, rfl, ?_⟩, rfl, rfl, rfl, rfl⟩
  intro hlt
  show (b : Int) - 3600 * tz < (e : Int) - 3600 * tz
  omega

/-- C7, witness: the conversion instantiated on the sample row. -/
theorem C7_witness :
    (canvas_event_payload COURSE_ID evSample).start_at = strftimeUTC evSample.start ∧
    strftimeUTC (((strptime_ymd_hm "2024-01-15 10:00").getD 0 : Int) - 3600 * 1) =
      "2024-01-15T09:00:00Z" := by
  have h := C7_time_conversion 1 [rowSample] [evSample] evSample rfl (by simp)
  exact ⟨h.2.1, h.2.2.2.1⟩

/-- C8: a row whose Begin date or Begin time field is absent or empty is
skipped silently — parseRow yields no event and no error — and a source of
only such rows parses to the empty event list. -/
theorem C8_skip_empty_rows (tz : Int) :
    (∀ row : Row,
       (rowGet row "Begin date" = none ∨ rowGet row "Begin date" = some "" ∨
        rowGet row "Begin time" = none ∨ rowGet row "Begin time" = some "") →
       parseRow tz row = Except.ok none) ∧
    (∀ rows : List Row,
       (∀ row ∈ rows,
         rowGet row "Begin date" = none ∨ rowGet row "Begin date" = some "" ∨
         rowGet row "Begin time" = none ∨ rowGet row "Begin time" = some "") →
       parse_csv_file tz rows = Except.ok []) := by
  have hrow : ∀ row : Row,
      (rowGet row "Begin date" = none ∨ rowGet row "Begin date" = some "" ∨
       rowGet row "Begin time" = none ∨ rowGet row "Begin time" = some "") →
      parseRow tz row = Except.ok none := by
    intro row hcond
    have hc : (pyFalsy (rowGet row "Begin date") || pyFalsy (rowGet row "Begin time")) = true := by
      rcases hcond with h | h | h | h <;> simp [pyFalsy, h]
    unfold parseRow
    simp [hc]
  refine ⟨hrow, ?_⟩
  intro rows hall
  induction rows with
  | nil => rfl
  | cons row rest ih =>
    unfold parse_csv_file
    rw [hrow row (hall row (List.mem_cons_self row rest))]
    exact ih (fun r hr => hall r (List.mem_cons_of_mem _ hr))

/-- C8, witness: a source of two such rows (one with Begin time absent,
one with Begin date empty) yields zero events. -/
theorem C8_witness :
    parse_csv_file 1
      [[("Begin date", "2024-01-15")], [("Begin date", ""), ("Begin time", "10:00")]] =
      Except.ok [] :=
  (C8_skip_empty_rows 1).2 _ (by decide)

/-- C9: the description emits the Title block exactly when the title is
non-empty and not already present verbatim among the activities; when the
title equals an activity entry the block is omitted. -/
theorem C9_title_block_dedup (ev : Event) :
    ((¬ ev.title = "" ∧ ¬ ev.title ∈ ev.activities) →
       ("📌 " ++ t "title" ++ ": " ++ ev.title ++ "<br>") ∈ description_parts ev) ∧
    (¬ title_block ev = [] ↔ (¬ ev.title = "" ∧ ¬ ev.title ∈ ev.activities)) ∧
    (ev.title ∈ ev.activities → title_block ev = []) := by
  refine ⟨?_, ?_, ?_⟩
  · intro hcond
    have hblock : title_block ev = ["📌 " ++ t "title" ++ ": " ++ ev.title ++ "<br>", "<br>"] := by
      unfold title_block
      rw [if_pos ⟨hcond.1, hcond.2⟩]
    unfold description_parts
    rw [hblock]
    simp
  · constructor
    · intro hne
      by_contra hc
      apply hne
      unfold title_block
      rw [if_neg hc]
    · intro hcond
      unfold title_block
      rw [if_pos hcond]
      simp
  · intro hmem
    unfold title_block
    rw [if_neg (fun hcond => hcond.2 hmem)]

/-- C9, witness: the sample event (title Intro, activity Lecture) emits
the Title block; the same event with title Lecture omits it. -/
theorem C9_witness :
    ("📌 " ++ t "title" ++ ": " ++ evSample.title ++ "<br>") ∈ description_parts evSample ∧
    title_block { evSample with title := "Lecture" } = [] := by
  constructor
  · exact (C9_title_block_dedup evSample).1 (by decide)
  · exact (C9_title_block_dedup { evSample with title := "Lecture" }).2.2 (by decide)

/-- C10: a row that is not skipped, whose End fields are present, and
whose begin or end date/time text fails the fixed-format parse makes the
whole parse fail with an error: no event list is produced, and any run
over that source (with a token passing the placeholder guard) exits with
status 1. -/
theorem C10_malformed_timestamp_fatal (tz : Int) (rows : List Row) (row : Row) (edv etv : String)
    (hmem : row ∈ rows)
    (hskip : (pyFalsy (rowGet row "Begin date") || pyFalsy (rowGet row "Begin time")) = false)
    (hed : rowIndex row "End date" = Except.ok edv)
    (het : rowIndex row "End time" = Except.ok etv)
    (hbad : strptime_ymd_hm (pyStrip ((rowGet row "Begin date").getD "") ++ " " ++
              pyStrip ((rowGet row "Begin time").getD "")) = none ∨
            strptime_ymd_hm (pyStrip edv ++ " " ++ pyStrip etv) = none) :
    (∃ msg, parse_csv_file tz rows = Except.error msg) ∧
    (∀ evs, ¬ parse_csv_file tz rows = Except.ok evs) ∧
    (∀ token confirm transport, (token == "YOUR_API_TOKEN_HERE") = false →
        main_run token (some rows) tz confirm transport = RunResult.exited 1) := by
  have hrowerr : ∃ msg, parseRow tz row = Except.error msg := by
    cases hbv : strptime_ymd_hm (pyStrip ((rowGet row "Begin date").getD "") ++ " " ++
        pyStrip ((rowGet row "Begin time").getD "")) with
    | none =>
      exact ⟨"time data does not match format: " ++ pyStrip ((rowGet row "Begin date").getD "") ++
        " " ++ pyStrip ((rowGet row "Begin time").getD ""),
        by simp [parseRow, hskip, hed, het, hbv]⟩
    | some b2 =>
      have hbe : strptime_ymd_hm (pyStrip edv ++ " " ++ pyStrip etv) = none := by
        rcases hbad with hx | hx
        · rw [hx] at hbv
          exact Option.noConfusion hbv
        · exact hx
      exact ⟨"time data does not match format: " ++ pyStrip edv ++ " " ++ pyStrip etv,
        by simp [parseRow, hskip, hed, het, hbv, hbe]⟩
  obtain ⟨msg, hmsg⟩ := hrowerr
  obtain ⟨msg2, hmsg2⟩ := parse_csv_file_error_of_mem tz rows row msg hmem hmsg
  refine ⟨⟨msg2, hmsg2⟩, ?_, ?_⟩
  · intro evs hok
    rw [hok] at hmsg2
    exact Except.noConfusion hmsg2
  · intro token confirm transport htok
    unfold main_run
    rw [htok]
    simp only [Bool.false_eq_true, if_false]
    rw [hmsg2]

/-- C10, witness: a single row with End date 2024-13-01 (month 13) aborts
the parse, and a full run over it — API token not caught by the broken
placeholder guard — exits with status 1. -/
theorem C10_witness :
    (∃ msg, parse_csv_file 1 [rowBadTimestamp] = Except.error msg) ∧
    main_run API_TOKEN (some [rowBadTimestamp]) 1 "yes"
      (fun _ => TransportOutcome.response 201 "") = RunResult.exited 1 := by
  have h := C10_malformed_timestamp_fatal 1 [rowBadTimestamp] rowBadTimestamp "2024-13-01" "11:00"
    (by simp) rfl rfl rfl (Or.inr rfl)
  exact ⟨h.1, h.2.2 API_TOKEN "yes" _ rfl⟩
